import Mathlib

/-!
Verification of the clipboard copy tool (`src/script.js`).

The script exposes:
  * `readTextFromTarget(selectorOrEl)` — reads the text of a UI element;
  * `copyText(text)` — two-tier clipboard write: modern `navigator.clipboard`
    API first, then a legacy `document.execCommand('copy')` fallback using a
    temporary off-screen textarea; returns `{ok: true}` or
    `{ok: false, message}`;
  * a "copy all" click handler combining four optional text sources.

The embedding below models the JavaScript functions as pure Lean functions.
The behaviour of the host environment (availability / rejection of the
clipboard API, exceptions raised by DOM manipulation, the boolean result of
`execCommand`) is an explicit parameter, and the DOM mutation performed by
the fallback path (insertion/removal of the temporary textarea into
`document.body`) is tracked as explicit state: the number of temporary
textareas currently attached to the document body.
-/

namespace ClipboardTool

/-- A JavaScript value as it may be passed to `copyText(text)`.
Numbers are modelled with `Int` plus a separate `NaN` constructor; this is
enough to express JavaScript truthiness, which is all the source consults
about non-string inputs. -/
inductive JSValue where
  | undef
  | nullv
  | boolean (b : Bool)
  | number (n : Int)
  | nan
  | str (s : String)
  deriving DecidableEq, Repr

/-- JavaScript truthiness of a `JSValue`: `undefined`, `null`, `false`, `0`,
`NaN` and `""` are falsy, everything else is truthy. -/
def jsTruthy : JSValue → Bool
  | .undef => false
  | .nullv => false
  | .boolean b => b
  | .number n => n != 0
  | .nan => false
  | .str s => s != ""

/-- A JavaScript exception value as observed by the `catch (err)` handler in
`copyText`. `message = none` models an `err` that is itself falsy or lacks a
`message` property (so that `err && err.message` is falsy);
`message = some m` models an error object carrying the string `m`. -/
structure JsError where
  message : Option String
  deriving DecidableEq, Repr

/-- Embeds the catch-branch expression of `copyText`
(`err && err.message ? err.message : 'Copy failed'`, src/script.js:54):
JavaScript truthiness of a string is non-emptiness, so a present non-empty
message is returned and anything else yields the generic `"Copy failed"`. -/
def errReportMessage (e : JsError) : String :=
  match e.message with
  | some m => if m = "" then "Copy failed" else m
  | none => "Copy failed"

/-- The outcome object `copyText` resolves with: `{ok: true}` or
`{ok: false, message}`. -/
inductive Outcome where
  | success
  | failure (message : String)
  deriving DecidableEq, Repr

/-- Behaviour of the modern clipboard capability for one call:
`unavailable` models `navigator.clipboard` missing or `writeText` not being a
function (src/script.js:26); `succeeds` models `writeText` resolving;
`rejects err` models `writeText` rejecting with `err`. -/
inductive PrimaryBehavior where
  | unavailable
  | succeeds
  | rejects (err : JsError)
  deriving DecidableEq, Repr

/-- The environment of one `copyText` call: what the primary capability does,
and what the DOM / legacy-command steps of the fallback do.
`createThrows` covers an exception raised while creating and styling the
textarea, before `document.body.appendChild(ta)` (src/script.js:38-43);
`focusSelectThrows` covers an exception from `ta.focus()` / `ta.select()`
after the element is attached (src/script.js:45-46); `execCommand` is the
behaviour of `document.execCommand('copy')` (src/script.js:48): it either
returns a boolean or throws. -/
structure CopyEnv where
  primary : PrimaryBehavior
  createThrows : Option JsError
  focusSelectThrows : Option JsError
  execCommand : Except JsError Bool
  deriving Repr

/-- The observable result of one `copyText` call: the resolved outcome, the
number of temporary textareas attached to `document.body` when the call
returns, and trace flags recording whether the primary write was attempted,
whether the fallback block ran, and whether a temporary element was ever
inserted into the document during the call. -/
structure CopyResult where
  outcome : Outcome
  tempElems : Nat
  primaryAttempted : Bool
  fallbackRan : Bool
  everInserted : Bool
  deriving DecidableEq, Repr

/-- The fallback block of `copyText` (src/script.js:37-55): create a
temporary textarea, append it to `document.body`, focus and select it, run
`document.execCommand('copy')`, remove the textarea, and map the command's
boolean to an outcome; any exception is caught and turned into a failure
outcome.  `d` is the number of temporary textareas in the document when the
block starts; the function returns the outcome, the count when the block
ends, and whether an element was inserted at any point.  Note that the
source's `catch` block (src/script.js:52-55) does not remove the element:
`document.body.removeChild(ta)` (src/script.js:49) runs only when
`execCommand` returns normally. -/
def fallbackCopy (env : CopyEnv) (d : Nat) : Outcome × Nat × Bool :=
  match env.createThrows with
  | some e => (.failure (errReportMessage e), d, false)
  | none =>
    let d1 := d + 1
    match env.focusSelectThrows with
    | some e => (.failure (errReportMessage e), d1, true)
    | none =>
      match env.execCommand with
      | .error e => (.failure (errReportMessage e), d1, true)
      | .ok successful =>
        let d2 := d1 - 1
        if successful then (.success, d2, true)
        else (.failure "Copy command unsuccessful", d2, true)

/-- `copyText(text)` (src/script.js:20-56).  The guard
`if (!text && text !== '')` rejects every falsy input other than the exact
empty string with `{ok:false, message:'Nothing to copy'}`.  Otherwise the
modern API is tried when available; on its success the call resolves with
`{ok:true}`; on rejection the error is only logged and the fallback runs;
when the API is unavailable the fallback runs directly. -/
def copyText (env : CopyEnv) (text : JSValue) (d : Nat) : CopyResult :=
  if jsTruthy text = false ∧ text ≠ JSValue.str "" then
    ⟨.failure "Nothing to copy", d, false, false, false⟩
  else
    match env.primary with
    | .succeeds => ⟨.success, d, true, false, false⟩
    | .unavailable =>
      let r := fallbackCopy env d
      ⟨r.1, r.2.1, false, true, r.2.2⟩
    | .rejects _ =>
      let r := fallbackCopy env d
      ⟨r.1, r.2.1, true, true, r.2.2⟩

/-- Whether a `PrimaryBehavior` makes `copyText` reach the fallback block:
the modern API is absent, or its write rejects. -/
def reachesFallback : PrimaryBehavior → Bool
  | .succeeds => false
  | .unavailable => true
  | .rejects _ => true

/-- A DOM element as consulted by `readTextFromTarget` (src/script.js:10-17):
its tag name, its live `value` (meaningful for `INPUT`/`TEXTAREA`), and its
`textContent` / `innerText` properties.  The latter two are `Option String`
so that an absent property (`undefined`, falsy) is distinguishable from a
present string. -/
structure DomElement where
  tagName : String
  value : String
  textContent : Option String
  innerText : Option String
  deriving DecidableEq, Repr

/-- JavaScript `a || b` specialised to an optional string on the left: a
present non-empty string is truthy and is returned, otherwise the
right-hand operand is returned. -/
def strOrElse (a : Option String) (b : String) : String :=
  match a with
  | some s => if s = "" then b else s
  | none => b

/-- The element-level body of `readTextFromTarget` (src/script.js:12-16),
applied once the argument has been resolved to an element: `none` models
`el` being `null` (selector matched nothing) or a falsy non-string argument
(`if (!el) return ''`); for `INPUT`/`TEXTAREA` elements the live `value` is
returned; otherwise `el.textContent || el.innerText || ''`. -/
def readTextFromEl : Option DomElement → String
  | none => ""
  | some el =>
    if el.tagName = "INPUT" ∨ el.tagName = "TEXTAREA" then el.value
    else strOrElse el.textContent (strOrElse el.innerText "")

/-- The argument of `readTextFromTarget`: a string selector, or a direct
element reference (`element none` models a falsy non-string argument such as
`null` or `undefined`). -/
inductive SelectorOrEl where
  | selector (s : String)
  | element (el : Option DomElement)

/-- `readTextFromTarget(selectorOrEl)` (src/script.js:10-17) including the
resolution step of line 11: a string argument goes through
`document.querySelector`, whose behaviour is the explicit environment `doc` —
for a syntactically invalid selector the host throws a `SyntaxError`, and
since the source function has no try/catch that exception propagates out
(`Except.error`); a valid selector resolves to an element or to `null`.
A non-string argument is used as the element directly and no host call that
can throw is made. -/
def readTextFromTarget (doc : String → Except JsError (Option DomElement)) :
    SelectorOrEl → Except JsError String
  | .selector s =>
    match doc s with
    | .error e => .error e
    | .ok el => .ok (readTextFromEl el)
  | .element el => .ok (readTextFromEl el)

/-- The parts list built by the `copyAll` click handler
(src/script.js:102-111): each of the four extracted texts is pushed when
truthy (non-empty), in the fixed order shortText, email, message, code, the
code part preceded by the marker line. -/
def copyAllParts (shortText email message code : String) : List String :=
  let parts : List String := []
  let parts := if shortText != "" then parts ++ [shortText] else parts
  let parts := if email != "" then parts ++ [email] else parts
  let parts := if message != "" then parts ++ [message] else parts
  let parts := if code != "" then parts ++ ["Code:\n" ++ code] else parts
  parts

/-- `parts.join('\n\n')` (src/script.js:113). -/
def copyAllCombined (shortText email message code : String) : String :=
  String.intercalate "\n\n" (copyAllParts shortText email message code)

/-- The string the `copyAll` handler passes to `copyText`, or `none` when no
copy is attempted: `if (!combined) { ...; return; }` (src/script.js:114-119). -/
def copyAllAttempt (shortText email message code : String) : Option String :=
  let combined := copyAllCombined shortText email message code
  if combined != "" then some combined else none

/-- Modelled from the spec claim, for comparison with the source behaviour:
the fallback exception message as the claim describes it — the exception's
message whenever one is available, and `"Copy failed"` only when it is
unavailable. -/
def claimC5Message (e : JsError) : String :=
  e.message.getD "Copy failed"

/-! ## Helper lemmas -/

/-- The catch-branch message is never the empty string. -/
theorem errReportMessage_ne_empty (e : JsError) : errReportMessage e ≠ "" := by
  rcases e with ⟨m⟩
  cases m with
  | none => decide
  | some s =>
    show (if s = "" then "Copy failed" else s) ≠ ""
    by_cases h : s = ""
    · rw [if_pos h]; decide
    · rw [if_neg h]; exact h

/-- For a string argument, the `!text && text !== ''` guard of `copyText`
never fires: the call proceeds to the copy paths. -/
theorem copyText_str (env : CopyEnv) (s : String) (d : Nat) :
    copyText env (JSValue.str s) d =
      match env.primary with
      | .succeeds => ⟨.success, d, true, false, false⟩
      | .unavailable =>
        let r := fallbackCopy env d
        ⟨r.1, r.2.1, false, true, r.2.2⟩
      | .rejects _ =>
        let r := fallbackCopy env d
        ⟨r.1, r.2.1, true, true, r.2.2⟩ := by
  unfold copyText
  rw [if_neg]
  rintro ⟨h1, h2⟩
  simp only [jsTruthy, bne_eq_false_iff_eq] at h1
  exact h2 (by rw [h1])

/-- The fallback block never consults the primary behaviour. -/
theorem fallbackCopy_primary_irrel (p p₂ : PrimaryBehavior)
    (ct fs : Option JsError) (ex : Except JsError Bool) (d : Nat) :
    fallbackCopy ⟨p, ct, fs, ex⟩ d = fallbackCopy ⟨p₂, ct, fs, ex⟩ d := rfl

/-- Outcome of `copyText` when an exception is thrown at each stage of the
fallback block, for any primary behaviour that falls through to it. -/
theorem copyText_throw_outcome (p : PrimaryBehavior) (hp : reachesFallback p = true)
    (d : Nat) (s : String) (e : JsError) (fs : Option JsError)
    (ex : Except JsError Bool) :
    (copyText ⟨p, some e, fs, ex⟩ (JSValue.str s) d).outcome =
      .failure (errReportMessage e) ∧
    (copyText ⟨p, none, some e, ex⟩ (JSValue.str s) d).outcome =
      .failure (errReportMessage e) ∧
    (copyText ⟨p, none, none, .error e⟩ (JSValue.str s) d).outcome =
      .failure (errReportMessage e) := by
  cases p with
  | succeeds => simp [reachesFallback] at hp
  | unavailable =>
    refine ⟨?_, ?_, ?_⟩ <;> (rw [copyText_str]; rfl)
  | rejects e₀ =>
    refine ⟨?_, ?_, ?_⟩ <;> (rw [copyText_str]; rfl)

/-! ## Claims -/

/-- C1, counterexample: when `document.execCommand('copy')` throws, the
`catch` block of the fallback (src/script.js:52-55) returns without running
`document.body.removeChild(ta)`, so the temporary textarea inserted by
`appendChild` is still attached to the document when the call returns: with
no textarea present initially, one remains — the document's child set is
changed, contradicting the claim. -/
theorem c1_counterexample :
    (copyText ⟨.unavailable, none, none, .error ⟨some "boom"⟩⟩
        (JSValue.str "hi") 0).fallbackRan = true ∧
    (copyText ⟨.unavailable, none, none, .error ⟨some "boom"⟩⟩
        (JSValue.str "hi") 0).everInserted = true ∧
    (copyText ⟨.unavailable, none, none, .error ⟨some "boom"⟩⟩
        (JSValue.str "hi") 0).tempElems = 1 ∧
    (1 : Nat) ≠ 0 :=
  ⟨rfl, rfl, rfl, by decide⟩

/-- C1 (amended): on the fallback path, the temporary element is removed by
the time the call returns after the legacy command reports success or
failure without raising, and the document is unchanged when an exception is
raised before the element is inserted; but when an exception is raised after
insertion (during focus/select or by the legacy command itself), the element
is not removed and persists in the document. -/
theorem c1_temp_element (p : PrimaryBehavior) (hp : reachesFallback p = true)
    (d : Nat) (s : String) :
    (∀ e fs ex, (copyText ⟨p, some e, fs, ex⟩ (JSValue.str s) d).tempElems = d ∧
        (copyText ⟨p, some e, fs, ex⟩ (JSValue.str s) d).everInserted = false) ∧
    (∀ b, (copyText ⟨p, none, none, .ok b⟩ (JSValue.str s) d).tempElems = d) ∧
    (∀ e ex, (copyText ⟨p, none, some e, ex⟩ (JSValue.str s) d).tempElems = d + 1) ∧
    (∀ e, (copyText ⟨p, none, none, .error e⟩ (JSValue.str s) d).tempElems = d + 1) := by
  cases p with
  | succeeds => simp [reachesFallback] at hp
  | unavailable =>
    refine ⟨fun e fs ex => ⟨?_, ?_⟩, fun b => ?_, fun e ex => ?_, fun e => ?_⟩ <;>
      (rw [copyText_str])
    · rfl
    · rfl
    · show (fallbackCopy ⟨_, none, none, .ok b⟩ d).2.1 = d
      cases b <;> rfl
    · rfl
    · rfl
  | rejects e₀ =>
    refine ⟨fun e fs ex => ⟨?_, ?_⟩, fun b => ?_, fun e ex => ?_, fun e => ?_⟩ <;>
      (rw [copyText_str])
    · rfl
    · rfl
    · show (fallbackCopy ⟨_, none, none, .ok b⟩ d).2.1 = d
      cases b <;> rfl
    · rfl
    · rfl

/-- C1 witness for the amended theorem's hypothesis. -/
theorem c1_temp_element_witness :
    (copyText ⟨.unavailable, none, none, .ok true⟩ (JSValue.str "hi") 0).tempElems = 0 :=
  (c1_temp_element .unavailable rfl 0 "hi").2.1 true

/-- C2: for every string input and every environment behaviour, `copyText`
returns an outcome — `{ok: true}` or a failure with a non-empty message —
and, being a total function of the environment, never propagates an
exception; the same holds for every non-string input, where the guard
produces the non-empty message `"Nothing to copy"`. -/
theorem c2_outcome_total (env : CopyEnv) (v : JSValue) (d : Nat) :
    (copyText env v d).outcome = Outcome.success ∨
    ∃ m, (copyText env v d).outcome = Outcome.failure m ∧ m ≠ "" := by
  by_cases hg : jsTruthy v = false ∧ v ≠ JSValue.str ""
  · rw [copyText, if_pos hg]
    exact Or.inr ⟨"Nothing to copy", rfl, by decide⟩
  · rw [copyText, if_neg hg]
    rcases env with ⟨p, ct, fs, ex⟩
    cases p with
    | succeeds => exact Or.inl rfl
    | unavailable =>
      show (fallbackCopy _ d).1 = _ ∨ ∃ m, (fallbackCopy _ d).1 = _ ∧ _
      cases ct with
      | some e => exact Or.inr ⟨_, rfl, errReportMessage_ne_empty e⟩
      | none =>
        cases fs with
        | some e => exact Or.inr ⟨_, rfl, errReportMessage_ne_empty e⟩
        | none =>
          cases ex with
          | error e => exact Or.inr ⟨_, rfl, errReportMessage_ne_empty e⟩
          | ok b =>
            cases b with
            | false => exact Or.inr ⟨_, rfl, by decide⟩
            | true => exact Or.inl rfl
    | rejects e₀ =>
      show (fallbackCopy _ d).1 = _ ∨ ∃ m, (fallbackCopy _ d).1 = _ ∧ _
      cases ct with
      | some e => exact Or.inr ⟨_, rfl, errReportMessage_ne_empty e⟩
      | none =>
        cases fs with
        | some e => exact Or.inr ⟨_, rfl, errReportMessage_ne_empty e⟩
        | none =>
          cases ex with
          | error e => exact Or.inr ⟨_, rfl, errReportMessage_ne_empty e⟩
          | ok b =>
            cases b with
            | false => exact Or.inr ⟨_, rfl, by decide⟩
            | true => exact Or.inl rfl

/-- C3: an entirely absent input (`undefined` or `null`) yields
`Failure{"Nothing to copy"}` immediately — no primary attempt, no fallback,
no DOM mutation — while the explicit empty string passes the precondition
check and proceeds to attempt a copy path. -/
theorem c3_absent_vs_empty (env : CopyEnv) (d : Nat) :
    copyText env JSValue.undef d =
      ⟨.failure "Nothing to copy", d, false, false, false⟩ ∧
    copyText env JSValue.nullv d =
      ⟨.failure "Nothing to copy", d, false, false, false⟩ ∧
    ((copyText env (JSValue.str "") d).primaryAttempted = true ∨
     (copyText env (JSValue.str "") d).fallbackRan = true) := by
  refine ⟨?_, ?_, ?_⟩
  · rw [copyText, if_pos ⟨rfl, by decide⟩]
  · rw [copyText, if_pos ⟨rfl, by decide⟩]
  · rw [copyText_str]
    rcases env with ⟨p, ct, fs, ex⟩
    cases p with
    | succeeds => exact Or.inl rfl
    | unavailable => exact Or.inr rfl
    | rejects e₀ => exact Or.inl rfl

/-- C4: `copyText` tries the modern API first whenever it is available; on
its success the outcome is `{ok: true}`, the fallback never runs and no
temporary element is ever inserted; on its rejection the error is never part
of the returned result (the whole result is independent of the rejection
error) and execution falls through to the fallback instead. -/
theorem c4_primary_first (d : Nat) (s : String) :
    (∀ ct fs ex, copyText ⟨.succeeds, ct, fs, ex⟩ (JSValue.str s) d =
        ⟨.success, d, true, false, false⟩) ∧
    (∀ e ct fs ex,
        (copyText ⟨.rejects e, ct, fs, ex⟩ (JSValue.str s) d).primaryAttempted = true ∧
        (copyText ⟨.rejects e, ct, fs, ex⟩ (JSValue.str s) d).fallbackRan = true) ∧
    (∀ e e₂ ct fs ex, copyText ⟨.rejects e, ct, fs, ex⟩ (JSValue.str s) d =
        copyText ⟨.rejects e₂, ct, fs, ex⟩ (JSValue.str s) d) := by
  refine ⟨fun ct fs ex => ?_, fun e ct fs ex => ⟨?_, ?_⟩, fun e e₂ ct fs ex => ?_⟩
  · rw [copyText_str]
  · rw [copyText_str]
  · rw [copyText_str]
  · rw [copyText_str, copyText_str]
    exact rfl

/-- C5, counterexample: an exception carrying the empty-string message has a
message that is available, so the claim prescribes a failure carrying that
(empty) message; the code instead tests truthiness of `err.message`
(src/script.js:54) and returns the generic `"Copy failed"`. -/
theorem c5_counterexample :
    (copyText ⟨.unavailable, none, none, .error ⟨some ""⟩⟩
        (JSValue.str "x") 0).outcome = Outcome.failure "Copy failed" ∧
    claimC5Message ⟨some ""⟩ = "" ∧
    (copyText ⟨.unavailable, none, none, .error ⟨some ""⟩⟩
        (JSValue.str "x") 0).outcome ≠ Outcome.failure (claimC5Message ⟨some ""⟩) := by
  refine ⟨rfl, rfl, ?_⟩
  decide

/-- C5 (amended): in the fallback path, an exception at any stage — while
creating the element before insertion, while focusing/selecting it, or from
the legacy command — yields a failure whose message is the exception's
message when that is a present non-empty string, and the generic
`"Copy failed"` when the message is absent or empty. -/
theorem c5_exception_message (p : PrimaryBehavior) (hp : reachesFallback p = true)
    (d : Nat) (s : String) (e : JsError) :
    (∀ fs ex, (copyText ⟨p, some e, fs, ex⟩ (JSValue.str s) d).outcome =
        .failure (errReportMessage e)) ∧
    (∀ ex, (copyText ⟨p, none, some e, ex⟩ (JSValue.str s) d).outcome =
        .failure (errReportMessage e)) ∧
    (copyText ⟨p, none, none, .error e⟩ (JSValue.str s) d).outcome =
      .failure (errReportMessage e) ∧
    (∀ m, m ≠ "" → errReportMessage ⟨some m⟩ = m) ∧
    errReportMessage ⟨some ""⟩ = "Copy failed" ∧
    errReportMessage ⟨none⟩ = "Copy failed" := by
  refine ⟨fun fs ex => (copyText_throw_outcome p hp d s e fs ex).1,
    fun ex => (copyText_throw_outcome p hp d s e none ex).2.1,
    (copyText_throw_outcome p hp d s e none (.error e)).2.2,
    fun m hm => ?_, rfl, rfl⟩
  show (if m = "" then "Copy failed" else m) = m
  rw [if_neg hm]

/-- C5 witness for the amended theorem's hypotheses. -/
theorem c5_exception_message_witness :
    (copyText ⟨.unavailable, none, none, .error ⟨some "boom"⟩⟩
        (JSValue.str "x") 0).outcome = Outcome.failure "boom" := by
  have h := c5_exception_message PrimaryBehavior.unavailable rfl 0 "x" ⟨some "boom"⟩
  rw [h.2.2.1, h.2.2.2.1 "boom" (by decide)]

/-- C6: in the fallback path, when the legacy command returns a boolean
without raising, a `true` result yields `{ok: true}` and a `false` result
yields exactly `Failure{"Copy command unsuccessful"}` — both when the modern
API was unavailable and when it rejected. -/
theorem c6_exec_result (d : Nat) (s : String) (b : Bool) :
    (copyText ⟨.unavailable, none, none, .ok b⟩ (JSValue.str s) d).outcome =
      (if b then Outcome.success else Outcome.failure "Copy command unsuccessful") ∧
    ∀ e, (copyText ⟨.rejects e, none, none, .ok b⟩ (JSValue.str s) d).outcome =
      (if b then Outcome.success else Outcome.failure "Copy command unsuccessful") := by
  refine ⟨?_, fun e => ?_⟩ <;> (rw [copyText_str]; cases b <;> rfl)

/-- C7: the combined-copy handler includes exactly the non-empty sources, in
the fixed order shortText, email, message, code, joined with the
double-newline separator, with the code part prefixed by the marker line;
when all four sources are empty no copy is attempted. -/
theorem c7_copy_all (s e m c : String) :
    copyAllCombined s e m c =
      String.intercalate "\n\n"
        (([s, e, m].filter (fun x => x != "")) ++
          (if c = "" then [] else ["Code:\n" ++ c])) ∧
    (s = "" → e = "" → m = "" → c = "" → copyAllAttempt s e m c = none) := by
  constructor
  · by_cases hs : s = "" <;> by_cases he : e = "" <;> by_cases hm : m = "" <;>
      by_cases hc : c = "" <;>
      simp [copyAllCombined, copyAllParts, hs, he, hm, hc]
  · intro hs he hm hc
    rw [hs, he, hm, hc]
    rfl

/-- C7 witness for the all-empty hypotheses. -/
theorem c7_copy_all_witness :
    copyAllAttempt "" "" "" "" = none :=
  (c7_copy_all "" "" "" "").2 rfl rfl rfl rfl

/-- C8, counterexample: the source function has no try/catch around
`document.querySelector(selectorOrEl)` (src/script.js:11), so with a host
where the selector string is syntactically invalid and `querySelector`
throws a `SyntaxError`, the exception propagates out of `readTextFromTarget`
— the function raises, contradicting the claim that it never raises and
always returns a string. -/
theorem c8_counterexample :
    readTextFromTarget (fun _ => Except.error ⟨some "SyntaxError: not a valid selector"⟩)
        (SelectorOrEl.selector "!!") =
      Except.error ⟨some "SyntaxError: not a valid selector"⟩ ∧
    (readTextFromTarget (fun _ => Except.error ⟨some "SyntaxError: not a valid selector"⟩)
        (SelectorOrEl.selector "!!")).isOk = false :=
  ⟨rfl, rfl⟩

/-- C8 (amended): `readTextFromTarget` can raise in exactly one way — a
string argument that is an invalid selector makes `document.querySelector`
throw, and that exception propagates out unchanged.  In every other case it
never raises: a direct element reference always yields a string, a selector
the document resolves without throwing yields a string, the empty string is
returned when the source resolves to no element, an `INPUT`/`TEXTAREA`
element yields its current live `value`, and any other element yields its
text content (`textContent`, falling back to `innerText`), or the empty
string when neither is available (absent or empty). -/
theorem c8_read_text (doc : String → Except JsError (Option DomElement)) :
    (∀ el : Option DomElement,
        readTextFromTarget doc (SelectorOrEl.element el) = .ok (readTextFromEl el)) ∧
    (∀ sel el, doc sel = .ok el →
        readTextFromTarget doc (SelectorOrEl.selector sel) = .ok (readTextFromEl el)) ∧
    (∀ sel e, doc sel = .error e →
        readTextFromTarget doc (SelectorOrEl.selector sel) = .error e) ∧
    readTextFromEl none = "" ∧
    (∀ el : DomElement, (el.tagName = "INPUT" ∨ el.tagName = "TEXTAREA") →
        readTextFromEl (some el) = el.value) ∧
    (∀ el : DomElement, ¬(el.tagName = "INPUT" ∨ el.tagName = "TEXTAREA") →
        ((el.textContent = none ∨ el.textContent = some "") →
          (el.innerText = none ∨ el.innerText = some "") →
          readTextFromEl (some el) = "") ∧
        (∀ t, el.textContent = some t → t ≠ "" →
          readTextFromEl (some el) = t) ∧
        (∀ t, (el.textContent = none ∨ el.textContent = some "") →
          el.innerText = some t → t ≠ "" →
          readTextFromEl (some el) = t)) := by
  refine ⟨fun el => rfl, fun sel el h => ?_, fun sel e h => ?_, rfl,
    fun el hel => ?_, fun el hel => ⟨?_, fun t ht hne => ?_, fun t htc ht hne => ?_⟩⟩
  · show (match doc sel with | .error e => _ | .ok el => _) = _
    rw [h]
  · show (match doc sel with | .error e => _ | .ok el => _) = _
    rw [h]
  · show (if _ then _ else _) = _
    rw [if_pos hel]
  · intro htc hit
    show (if _ then _ else _) = _
    rw [if_neg hel]
    rcases htc with h | h <;> rcases hit with h₂ | h₂ <;>
      simp [strOrElse, h, h₂]
  · show (if _ then _ else _) = _
    rw [if_neg hel]
    simp [strOrElse, ht, hne]
  · show (if _ then _ else _) = _
    rw [if_neg hel]
    rcases htc with h | h <;> simp [strOrElse, h, ht, hne]

/-- C8 witness: a selector the document resolves to no element yields `""`;
an editable field yields its live value; a non-editable container yields its
text content. -/
theorem c8_read_text_witness :
    readTextFromTarget (fun _ => Except.ok none) (SelectorOrEl.selector "#missing") =
      .ok "" ∧
    readTextFromEl (some ⟨"INPUT", "hello", none, none⟩) = "hello" ∧
    readTextFromEl (some ⟨"DIV", "", some "world", none⟩) = "world" :=
  ⟨(c8_read_text (fun _ => Except.ok none)).2.1 "#missing" none rfl,
    (c8_read_text (fun _ => Except.ok none)).2.2.2.2.1
      ⟨"INPUT", "hello", none, none⟩ (Or.inl rfl),
    ((c8_read_text (fun _ => Except.ok none)).2.2.2.2.2
      ⟨"DIV", "", some "world", none⟩ (by decide)).2.1 "world" rfl (by decide)⟩

/-- C9: every falsy input other than the exact empty string — `undefined`,
`null`, `false`, `0`, `NaN` — is rejected as `Failure{"Nothing to copy"}`
with no primary attempt, no fallback and no DOM mutation; the empty string
is the sole falsy value that passes the guard and proceeds to a copy path. -/
theorem c9_falsy_inputs (env : CopyEnv) (d : Nat) (v : JSValue)
    (hfalsy : jsTruthy v = false) (hne : v ≠ JSValue.str "") :
    copyText env v d = ⟨.failure "Nothing to copy", d, false, false, false⟩ ∧
    ((copyText env (JSValue.str "") d).primaryAttempted = true ∨
     (copyText env (JSValue.str "") d).fallbackRan = true) := by
  constructor
  · rw [copyText, if_pos ⟨hfalsy, hne⟩]
  · rw [copyText_str]
    rcases env with ⟨p, ct, fs, ex⟩
    cases p with
    | succeeds => exact Or.inl rfl
    | unavailable => exact Or.inr rfl
    | rejects e₀ => exact Or.inl rfl

/-- C9 witness at the falsy non-string inputs `0`, `NaN` and `false`. -/
theorem c9_falsy_inputs_witness :
    copyText ⟨.succeeds, none, none, .ok true⟩ (JSValue.number 0) 0 =
      ⟨.failure "Nothing to copy", 0, false, false, false⟩ ∧
    copyText ⟨.succeeds, none, none, .ok true⟩ JSValue.nan 0 =
      ⟨.failure "Nothing to copy", 0, false, false, false⟩ ∧
    copyText ⟨.succeeds, none, none, .ok true⟩ (JSValue.boolean false) 0 =
      ⟨.failure "Nothing to copy", 0, false, false, false⟩ :=
  ⟨(c9_falsy_inputs ⟨.succeeds, none, none, .ok true⟩ 0 (JSValue.number 0)
      (by decide) (by decide)).1,
    (c9_falsy_inputs ⟨.succeeds, none, none, .ok true⟩ 0 JSValue.nan
      (by decide) (by decide)).1,
    (c9_falsy_inputs ⟨.succeeds, none, none, .ok true⟩ 0 (JSValue.boolean false)
      (by decide) (by decide)).1⟩

/-- C10: in the fallback exception branch, whenever the exception's message
is falsy — absent or the empty string — the outcome is exactly
`Failure{"Copy failed"}`, never a failure with an empty message, at every
throwing stage. -/
theorem c10_falsy_message (p : PrimaryBehavior) (hp : reachesFallback p = true)
    (d : Nat) (s : String) (e : JsError)
    (hmsg : e.message = none ∨ e.message = some "") :
    (∀ fs ex, (copyText ⟨p, some e, fs, ex⟩ (JSValue.str s) d).outcome =
        .failure "Copy failed") ∧
    (∀ ex, (copyText ⟨p, none, some e, ex⟩ (JSValue.str s) d).outcome =
        .failure "Copy failed") ∧
    (copyText ⟨p, none, none, .error e⟩ (JSValue.str s) d).outcome =
      .failure "Copy failed" := by
  have hmsg₂ : errReportMessage e = "Copy failed" := by
    rcases e with ⟨m⟩
    rcases hmsg with h | h <;> (cases h; rfl)
  refine ⟨fun fs ex => ?_, fun ex => ?_, ?_⟩
  · rw [(copyText_throw_outcome p hp d s e fs ex).1, hmsg₂]
  · rw [(copyText_throw_outcome p hp d s e none ex).2.1, hmsg₂]
  · rw [(copyText_throw_outcome p hp d s e none (.error e)).2.2, hmsg₂]

/-- C10 witness at an exception carrying the empty-string message. -/
theorem c10_falsy_message_witness :
    (copyText ⟨.rejects ⟨some "denied"⟩, none, none, .error ⟨some ""⟩⟩
        (JSValue.str "x") 0).outcome = Outcome.failure "Copy failed" :=
  (c10_falsy_message (.rejects ⟨some "denied"⟩) rfl 0 "x" ⟨some ""⟩
    (Or.inr rfl)).2.2

end ClipboardTool
